import Mathlib

/-!
Verification development for the `std_data_management` Odoo module
(student record management with PDF report generation).

Shallow embedding conventions:
* Python `float` fields are modelled as `ℚ` (every concrete value the
  claims exercise is exactly representable);
* Python `int` fields are modelled as `ℤ`;
* Odoo recordsets are modelled as lists; `Many2one` references are
  `Option Nat` record ids resolved against an environment;
* fallible operations return `Except String _`, the string being the
  user-facing error message (`UserError` / `ValueError` text);
* the PDF rasterizer (`xhtml2pdf.pisa`) is an external collaborator and
  is passed in as a function from the HTML string to an outcome;
* numeric string rendering is implemented over the rational's numerator
  and denominator so that every definition evaluates by kernel
  reduction.
-/

namespace StudData

/-- A value that can appear in a report cell: a Python `str`, `int` or
`float` (the `float` modelled as an exact rational). -/
inductive Cell where
  | str (v : String)
  | int (v : ℤ)
  | rat (v : ℚ)
  deriving DecidableEq, Repr

/-- Python's truthiness-based `a or b` on strings: `a` is falsy iff empty. -/
def pyOrS (a b : String) : String :=
  if a = "" then b else a

/-- `v or ''` on a Python int: `0` is falsy and coerces to the empty string. -/
def intOrEmpty (v : ℤ) : Cell :=
  if v = 0 then .str "" else .int v

/-- `v or ''` on a Python float: `0.0` is falsy and coerces to the empty string. -/
def ratOrEmpty (v : ℚ) : Cell :=
  if v = 0 then .str "" else .rat v

/-- `v or 0.0` on a Python float (used for the Percentage column). -/
def ratOrZero (v : ℚ) : ℚ :=
  if v = 0 then 0 else v

/-- Round the fraction `n / d` (with `d > 0`) to the nearest integer,
ties to even — the rounding used by Python's fixed-point `format` on
the exact value. -/
def roundHalfEvenND (n d : ℤ) : ℤ :=
  let f := Int.fdiv n d
  let r2 := 2 * (n - f * d)
  if r2 < d then f
  else if d < r2 then f + 1
  else if f % 2 = 0 then f else f + 1

/-- Left-pad a digit string with zeros to length `len`. -/
def padZeros (s : String) (len : Nat) : String :=
  if s.length ≥ len then s
  else String.mk (List.replicate (len - s.length) '0') ++ s

/-- Python's `f"{x:.df}"` fixed-point formatting of the float `num/den`
(`den > 0`): round `x * 10^d` half-to-even, then print with `d`
fractional digits (`d` is positive in every use: `.1f` and `.2f`). -/
def toFixed (num : ℤ) (den : Nat) (d : Nat) : String :=
  let scaled := roundHalfEvenND (num * 10 ^ d) (den : ℤ)
  let sign := if scaled < 0 ∨ (scaled = 0 ∧ num < 0) then "-" else ""
  let a := scaled.natAbs
  sign ++ toString (a / 10 ^ d) ++ "." ++ padZeros (toString (a % 10 ^ d)) d

/-- Python's `str()`/`repr` of a float value, used only where the source
interpolates a raw float into an f-string: integral values print with a
trailing `.0`, otherwise the shortest exact fixed-point form (Python
floats always have one; the denominator of a rational modelling a float
divides a power of ten after scaling by the power of two, and all
concrete values in this development are decimal). -/
def pyFloatRepr (q : ℚ) : String :=
  if q.den = 1 then toString q.num ++ ".0"
  else
    let d := (((List.range 18).drop 1).find? fun d => 10 ^ d % q.den = 0).getD 17
    toFixed q.num q.den d

/-- Python's `str()` applied to a cell value. -/
def cellStr : Cell → String
  | .str v => v
  | .int v => toString v
  | .rat v => pyFloatRepr v

/-- A minimal decimal parser standing for Python's `float(str)`,
returning numerator and (power-of-ten) denominator: optional sign,
digits, optional fractional digits.  `none` models `ValueError`.
Only the string branch of the Percentage formatter uses it, and the
report's row builder never produces a string Percentage cell; it is
kept for fidelity to the source's `try/except`. -/
def parseFloatND (s : String) : Option (ℤ × ℕ) :=
  let parseDigits (l : List Char) : ℕ :=
    l.foldl (fun acc c => acc * 10 + (c.toNat - '0'.toNat)) 0
  let core (t : List Char) : Option (ℤ × ℕ) :=
    let intPart := t.takeWhile (·.isDigit)
    let rest := t.drop intPart.length
    match rest with
    | [] => if intPart.isEmpty then none else some ((parseDigits intPart : ℤ), 1)
    | '.' :: frac =>
        if frac.all (·.isDigit) ∧ ¬(intPart.isEmpty ∧ frac.isEmpty) then
          some ((parseDigits intPart * 10 ^ frac.length + parseDigits frac : ℤ),
            10 ^ frac.length)
        else none
    | _ => none
  match s.toList with
  | '-' :: t => (core t).map (fun p => (-p.1, p.2))
  | '+' :: t => core t
  | t => core t

/-- The seven standardized department-report columns, in the source's
fixed order (`STANDARD_COLUMNS` in `report.py`). -/
def STANDARD_COLUMNS : List String :=
  ["Name", "Father Name", "Age", "Grade", "Total Marks",
   "Obtained Marks", "Percentage"]

/-- `StudentReport._format_cell_value` from `report.py`:
empty/NaN/None cells render as `"-"`; the Percentage column renders
numerics as 2-decimal fixed point plus `%` (strings lacking `%` are
parsed and formatted the same way, falling back to `str`); the Age /
Total Marks / Obtained Marks columns render numerics as the plain
integer when `float(value) == int(value)` (for a rational: denominator
1, printed as the truncation `int(value)`) and as 1-decimal fixed point
otherwise; everything else is `str(value)`.  NaN/None never arise for
cells built by the report (every field is defaulted with `or`), so the
source's `pd.isna(value) or value is None or value == ''` test reduces
to the empty-string test here. -/
def formatCellValue (columnName : String) (value : Cell) : String :=
  if value = .str "" then "-"
  else if columnName = "Percentage" then
    match value with
    | .int v => toFixed v 1 2 ++ "%"
    | .rat v => toFixed v.num v.den 2 ++ "%"
    | .str v =>
        if v.contains '%' then cellStr (.str v)
        else
          match parseFloatND v with
          | some p => toFixed p.1 p.2 2 ++ "%"
          | none => cellStr (.str v)
  else if columnName = "Age" ∨ columnName = "Total Marks" ∨
      columnName = "Obtained Marks" then
    match value with
    | .int v => toString v
    | .rat v => if v.den = 1 then toString v.num else toFixed v.num v.den 1
    | .str v => cellStr (.str v)
  else cellStr value

/-- Gender selection values of the `student` model. -/
inductive Gender where
  | male
  | female
  deriving DecidableEq, Repr

/-- The UI label of a gender code, per the model's selection list
`[('male', 'Male'), ('female', 'Female')]`;
`dict(selection).get(gender, '-')` yields `'-'` for an unset gender. -/
def genderLabel : Option Gender → String
  | some .male => "Male"
  | some .female => "Female"
  | none => "-"

/-- The `student` model (`stud.py`).  `id` is the database id;
`department_id` is a `Many2one` reference (`none` when unset);
`percentage` is the stored computed field. -/
structure Student where
  id : Nat
  active : Bool
  name : String
  father_name : String
  age : ℤ
  grade : String
  address : String
  department_id : Option Nat
  gender : Option Gender
  total_marks : ℚ
  obtained_marks : ℚ
  percentage : ℚ
  deriving DecidableEq, Repr

/-- The `education` model (`stud.py`): a child record of a student,
referencing an institute and a degree. -/
structure Education where
  id : Nat
  active : Bool
  connecting_field : Nat
  institute : Option Nat
  degree : Option Nat
  passing_year : ℤ
  deriving DecidableEq, Repr

/-- The database environment the reports read: lookup tables as
`(id, name)` association lists, plus the student and education rows. -/
structure Env where
  departments : List (Nat × String)
  institutes : List (Nat × String)
  degrees : List (Nat × String)
  students : List Student
  educations : List Education
  deriving Repr

/-- `Student.compute_percentage` (`stud.py` lines 50-56): store
`obtained_marks / total_marks * 100` when `total_marks > 0`, else `0`.
Triggered by `@api.depends('total_marks', 'obtained_marks')`. -/
def computePercentage (s : Student) : Student :=
  if s.total_marks > 0 then
    { s with percentage := s.obtained_marks / s.total_marks * 100 }
  else
    { s with percentage := 0 }

/-- A write touching `total_marks` or `obtained_marks`: the ORM stores
the new inputs and synchronously recomputes the dependent stored field.
The `percentage` field itself has no inverse, so no write path sets it
directly — every update goes through `computePercentage`. -/
def writeMarks (s : Student) (tm om : ℚ) : Student :=
  computePercentage { s with total_marks := tm, obtained_marks := om }

/-- The percentage invariant as the spec words it: `percentage =
obtained_marks / total_marks * 100` when `total_marks > 0`, else `0`. -/
def percentageInvariant (s : Student) : Prop :=
  (s.total_marks > 0 → s.percentage = s.obtained_marks / s.total_marks * 100) ∧
  (¬ s.total_marks > 0 → s.percentage = 0)

/-- A toast-style UI notification (`display_notification` client action
params). -/
structure Notification where
  title : String
  message : String
  ntype : String
  sticky : Bool
  deriving DecidableEq, Repr

/-- `ensure_one`: an Odoo action receives a recordset; these actions
require it to be a singleton and raise `ValueError` otherwise. -/
def ensureOne (recs : List Student) : Except String Student :=
  match recs with
  | [s] => .ok s
  | _ => .error "Expected singleton"

/-- `Student.action_delete_record` (`stud.py` lines 75-88): archive the
single target record by setting `active = False` and return a warning
notification naming the student. -/
def actionDeleteRecord (recs : List Student) :
    Except String (Student × Notification) :=
  match ensureOne recs with
  | .error e => .error e
  | .ok s =>
      .ok ({ s with active := false },
        ⟨"Archived!", "Student " ++ s.name ++ " has been archived.",
         "warning", false⟩)

/-- `Student.action_restore_record` (`stud.py` lines 90-103): restore
the single target record by setting `active = True` and return a
success notification naming the student. -/
def actionRestoreRecord (recs : List Student) :
    Except String (Student × Notification) :=
  match ensureOne recs with
  | .error e => .error e
  | .ok s =>
      .ok ({ s with active := true },
        ⟨"Restored!", "Student " ++ s.name ++ " has been restored.",
         "success", false⟩)

/-- Canonical department names seeded by `Department.init`. -/
def departmentNames : List String :=
  ["MATH", "BSCS", "PHYSICS", "BBA", "COMMERCE", "ALL"]

/-- Canonical institute names seeded by `Institute.init`. -/
def instituteNames : List String :=
  ["Superior", "Aspire", "Degree", "GUCF", "Punjab"]

/-- Canonical degree names seeded by `Degree.init`. -/
def degreeNames : List String :=
  ["Matric", "FSc", "BSc", "MPhil"]

/-- One step of a lookup-table `init`: `search([('name','=',name)],
limit=1)` and, when nothing is found, `create({'name': name})`.  The
table is modelled as the list of row names (creation appends). -/
def seedStep (rows : List String) (name : String) : List String :=
  if rows.contains name then rows else rows ++ [name]

/-- `Department.init` / `Institute.init` / `Degree.init` (`stud.py`
lines 159-207): for each canonical name in order, one exact-name lookup
and at most one conditional insert.  Later lookups see rows created
earlier in the same run. -/
def seedInit (canonical : List String) (rows : List String) : List String :=
  canonical.foldl seedStep rows

/-- Code-point comparison of character lists — Python's lexicographic
string order, used by pandas when sorting group keys. -/
def charsLe : List Char → List Char → Bool
  | [], _ => true
  | _ :: _, [] => false
  | a :: as, b :: bs =>
      if a.toNat < b.toNat then true
      else if b.toNat < a.toNat then false
      else charsLe as bs

/-- Python/pandas string `≤`. -/
def strLe (a b : String) : Bool :=
  charsLe a.toList b.toList

/-- Insert into a `strLe`-sorted list. -/
def insertSorted (x : String) : List String → List String
  | [] => [x]
  | y :: ys => if strLe x y then x :: y :: ys else y :: insertSorted x ys

/-- Sort a list of strings ascending (insertion sort). -/
def sortStrings (l : List String) : List String :=
  l.foldr insertSorted []

/-- First-occurrence deduplication. -/
def dedupKeys (l : List String) : List String :=
  l.foldl (fun acc k => if acc.contains k then acc else acc ++ [k]) []

/-- A normalized department-report row (`report.py` lines 57-69): the
`Department` grouping value plus one cell per standardized column,
every field defaulted through Python `or`. -/
structure Row where
  dept : String
  name : Cell
  fatherName : Cell
  age : Cell
  grade : Cell
  totalMarks : Cell
  obtainedMarks : Cell
  percentage : Cell
  deriving DecidableEq, Repr

/-- The `Department` value of a student's row:
`s.department_id.name if s.department_id else 'No Department'`.
(A dangling reference is modelled as the empty name; the claims only
use environments whose references resolve.) -/
def deptNameOf (env : Env) (s : Student) : String :=
  match s.department_id with
  | some i => (env.departments.lookup i).getD ""
  | none => "No Department"

/-- Build one report row from a student record (`report.py` 57-69). -/
def buildRow (env : Env) (s : Student) : Row where
  dept := deptNameOf env s
  name := .str (pyOrS s.name "")
  fatherName := .str (pyOrS s.father_name "")
  age := intOrEmpty s.age
  grade := .str (pyOrS s.grade "")
  totalMarks := ratOrEmpty s.total_marks
  obtainedMarks := ratOrEmpty s.obtained_marks
  percentage := .rat (ratOrZero s.percentage)

/-- The formatted `<td>` texts of a data row, in `STANDARD_COLUMNS`
order (`report.py` 187-192). -/
def rowCells (r : Row) : List String :=
  [formatCellValue "Name" r.name,
   formatCellValue "Father Name" r.fatherName,
   formatCellValue "Age" r.age,
   formatCellValue "Grade" r.grade,
   formatCellValue "Total Marks" r.totalMarks,
   formatCellValue "Obtained Marks" r.obtainedMarks,
   formatCellValue "Percentage" r.percentage]

/-- `df.groupby('Department')` group keys: the distinct `Department`
values present in the data, sorted ascending (pandas sorts group keys
by default).  A department with no rows in the data yields no key. -/
def groupKeys (rows : List Row) : List String :=
  sortStrings (dedupKeys (rows.map Row.dept))

/-- The body of a rendered table: either a single placeholder row
spanning all columns, or one formatted data row per record. -/
inductive TableBody where
  | placeholder (msg : String)
  | dataRows (rows : List (List String))
  deriving DecidableEq, Repr

/-- One rendered table of the department report: its department title,
header cells and body. -/
structure RTable where
  deptTitle : String
  header : List String
  body : TableBody
  deriving DecidableEq, Repr

/-- The tables of the department report (`report.py` 144-193).  An
empty result set renders one table titled with the target label and the
whole-report placeholder; otherwise one table per `groupby` key, with
the (unreachable, but present in the source) empty-group placeholder
branch. -/
def buildTables (label : String) (rows : List Row) : List RTable :=
  if rows.isEmpty then
    [⟨label, STANDARD_COLUMNS,
      .placeholder "No student records found for this department"⟩]
  else
    (groupKeys rows).map fun k =>
      let g := rows.filter (fun r => r.dept = k)
      ⟨k, STANDARD_COLUMNS,
        if g.isEmpty then .placeholder "No students in this department"
        else .dataRows (g.map rowCells)⟩

/-- The value of the Python variable `dept_name` after the rendering
section: the `for dept_name, group in df.groupby(...)` loop rebinds it,
so when the data frame is non-empty it ends as the last (sorted) group
key; only when the data frame is empty does it keep the target label. -/
def finalDeptName (label : String) (rows : List Row) : String :=
  if rows.isEmpty then label
  else ((groupKeys rows).getLast?).getD label

/-- Concatenate a list of strings. -/
def strJoin (l : List String) : String :=
  l.foldl (fun a b => a ++ b) ""

/-- Serialize one table to its HTML fragment (style markup elided; the
department title div, header cells, and either the colspan placeholder
row or the data rows are kept verbatim). -/
def renderTable (t : RTable) : String :=
  "<div class='department-title'>Department: " ++ t.deptTitle ++ "</div>" ++
  "<table class='student-table'><tr>" ++
  strJoin (t.header.map fun c => "<th>" ++ c ++ "</th>") ++ "</tr>" ++
  (match t.body with
   | .placeholder msg =>
       "<tr class='empty-row'><td colspan='" ++ toString t.header.length ++
       "' class='no-data'>" ++ msg ++ "</td></tr>"
   | .dataRows rs =>
       strJoin (rs.map fun cells =>
         "<tr>" ++ strJoin (cells.map fun c => "<td>" ++ c ++ "</td>") ++
         "</tr>")) ++
  "</table>"

/-- The assembled department-report HTML body (CSS elided). -/
def renderDeptHtml (label : String) (tables : List RTable) : String :=
  "<div class='report-title'>Department Report - " ++ label ++ "</div>" ++
  strJoin (tables.map renderTable)

/-- Replace spaces by underscores — `name.replace(" ", "_")`. -/
def replaceSpaces (s : String) : String :=
  String.mk (s.toList.map fun c => if c = ' ' then '_' else c)

/-- Result object of `pisa.CreatePDF`: an error flag (`0` = success,
any other value is truthy) and the bytes written to the destination
buffer. -/
structure PisaStatus where
  err : Nat
  data : String
  deriving DecidableEq, Repr

/-- Outcome of a call into the PDF rasterizer: a status object, or a
raised exception with its message. -/
inductive PisaOutcome where
  | ok (st : PisaStatus)
  | exn (msg : String)
  deriving DecidableEq, Repr

/-- The PDF-generation block shared by both report paths (`report.py`
200-209 and 481-490): call `pisa.CreatePDF` inside `try`; a truthy
`err` flag raises `UserError("PDF generation error: ...")`, which the
enclosing `except Exception` re-wraps — like any other exception — as
`UserError("PDF creation failed: ...")` carrying the cause message. -/
def makePdf (pisa : String → PisaOutcome) (html : String) :
    Except String String :=
  match pisa html with
  | .exn m => .error ("PDF creation failed: " ++ m)
  | .ok st =>
      if st.err ≠ 0 then
        .error ("PDF creation failed: PDF generation error: " ++ toString st.err)
      else .ok st.data

/-- A persisted `ir.attachment` row. -/
structure Attachment where
  id : Nat
  name : String
  resModel : String
  resId : Nat
  mimetype : String
  data : String
  deriving DecidableEq, Repr

/-- The `ir.actions.act_url` download action returned on success. -/
structure UrlAction where
  url : String
  deriving DecidableEq, Repr

/-- Step 1 of `print_department_report` (`report.py` 23-31): resolve
the target label.  With no `department_id`, search all departments —
label `"ALL"`, `UserError("No departments found.")` when none exist;
with a `department_id`, browse it (a non-empty recordset, so the
not-found error cannot fire) and take `departments.name or "ALL"`.
Reading the name of a dangling id raises Odoo's missing-record error. -/
def resolveDeptLabel (env : Env) (department_id : Option Nat) :
    Except String String :=
  match department_id with
  | none =>
      if env.departments.isEmpty then .error "No departments found."
      else .ok "ALL"
  | some i =>
      match env.departments.lookup i with
      | none => .error "Record does not exist or has been deleted."
      | some n => .ok (pyOrS n "ALL")

/-- Step 2 of `print_department_report` (`report.py` 36-39): fetch the
students — all of them when the label is `"ALL"`, else those whose
`department_id` equals the target.  Odoo's default search domain
excludes archived (`active = False`) records. -/
def fetchStudents (env : Env) (label : String) (department_id : Option Nat) :
    List Student :=
  if label = "ALL" then env.students.filter (fun s => s.active)
  else env.students.filter (fun s => s.active ∧ s.department_id = department_id)

/-- `StudentReport.print_department_report` (`report.py` 13-227):
resolve the target, fetch and normalize the students, group and render
the tables, rasterize to PDF, then persist the attachment (named from
the leaked loop variable `dept_name`, `res_id = 0`) and return the
download action.  The attachment store is threaded explicitly; on any
error it is returned unchanged. -/
def printDepartmentReport (env : Env) (pisa : String → PisaOutcome)
    (store : List Attachment) (department_id : Option Nat) :
    List Attachment × Except String UrlAction :=
  match resolveDeptLabel env department_id with
  | .error e => (store, .error e)
  | .ok label =>
      let rows := (fetchStudents env label department_id).map (buildRow env)
      let tables := buildTables label rows
      let html := renderDeptHtml label tables
      match makePdf pisa html with
      | .error e => (store, .error e)
      | .ok pdfData =>
          let att : Attachment :=
            ⟨store.length + 1,
             "Department_Report_" ++ replaceSpaces (finalDeptName label rows) ++
               ".pdf",
             "student", 0, "application/pdf", pdfData⟩
          (store ++ [att],
           .ok ⟨"/web/content/" ++ toString att.id ++ "?download=true"⟩)

/-- The name resolved for an education row's lookup reference
(`edu.institute.name if edu.institute else '-'`). -/
def lookupNameOr (table : List (Nat × String)) (ref : Option Nat) : String :=
  match ref with
  | some i => (table.lookup i).getD ""
  | none => "-"

/-- The three formatted cells of one education-history row
(`report.py` 337-342). -/
def educationRow (env : Env) (e : Education) : List String :=
  [lookupNameOr env.institutes e.institute,
   lookupNameOr env.degrees e.degree,
   if e.passing_year = 0 then "-" else toString e.passing_year]

/-- The Personal Information row of the single-student report
(`report.py` 301-318), in `PERSONAL_INFO_COLUMNS` order.  Numeric
fields are defaulted with `or '-'` and interpolated by the f-string:
a zero age renders `'-'`, a nonzero age its integer text. -/
def personalRow (env : Env) (s : Student) : List String :=
  [pyOrS s.name "-",
   pyOrS s.father_name "-",
   if s.age = 0 then "-" else toString s.age,
   genderLabel s.gender,
   (match s.department_id with
    | some i => (env.departments.lookup i).getD ""
    | none => "-"),
   pyOrS s.grade "-"]

/-- The Academic Performance row (`report.py` 308-310 and 327-331), in
`ACADEMIC_INFO_COLUMNS` order: marks defaulted with `or '-'` (a zero
mark renders `'-'`, other floats via Python `str`), percentage as
`f"{p:.2f}%"` when truthy and `'0.00%'` otherwise. -/
def academicRow (s : Student) : List String :=
  [if s.total_marks = 0 then "-" else pyFloatRepr s.total_marks,
   if s.obtained_marks = 0 then "-" else pyFloatRepr s.obtained_marks,
   if s.percentage = 0 then "0.00%"
   else toFixed s.percentage.num s.percentage.den 2 ++ "%"]

/-- The Education History table body of the single-student report:
one row per linked active education record, or the placeholder
`"No education history available"` spanning all three columns. -/
def educationBody (env : Env) (s : Student) : TableBody :=
  let rs := (env.educations.filter
    (fun e => e.active ∧ e.connecting_field = s.id)).map (educationRow env)
  if rs.isEmpty then .placeholder "No education history available"
  else .dataRows rs

/-- The single-student report HTML (style markup elided): the document
title naming the student (or the fallback literal), then the Personal,
Academic and Education tables in fixed order. -/
def renderSingleHtml (env : Env) (s : Student) : String :=
  "<h1>Student Report - " ++ pyOrS s.name "Unknown Student" ++ "</h1>" ++
  "<h2>Personal Information</h2>" ++
  renderTable ⟨"", ["Name", "Father Name", "Age", "Gender", "Department",
    "Grade"], .dataRows [personalRow env s]⟩ ++
  "<h2>Academic Performance</h2>" ++
  renderTable ⟨"", ["Total Marks", "Obtained Marks", "Percentage"],
    .dataRows [academicRow s]⟩ ++
  "<h2>Education History</h2>" ++
  renderTable ⟨"", ["Institute", "Degree", "Passing Year"],
    educationBody env s⟩

/-- `StudentReport.generate_single_student_report` (`report.py`
263-508): build the three sections, rasterize to PDF, persist the
attachment named `<student-name-or-"Student">_Report.pdf` linked to the
student's id, and return the download action. -/
def generateSingleStudentReport (env : Env) (pisa : String → PisaOutcome)
    (store : List Attachment) (s : Student) :
    List Attachment × Except String UrlAction :=
  let html := renderSingleHtml env s
  match makePdf pisa html with
  | .error e => (store, .error e)
  | .ok pdfData =>
      let att : Attachment :=
        ⟨store.length + 1, pyOrS s.name "Student" ++ "_Report.pdf",
         "student", s.id, "application/pdf", pdfData⟩
      (store ++ [att],
       .ok ⟨"/web/content/" ++ toString att.id ++ "?download=true"⟩)

/-- The two report modes of both wizards. -/
inductive ReportType where
  | single
  | department
  deriving DecidableEq, Repr

/-- `student.report.wizard` (`student_report_wizard.py`): the transient
selection state. -/
structure ReportWizard where
  report_type : ReportType
  student_id : Option Nat
  department_id : Option Nat
  deriving DecidableEq, Repr

/-- Assigning a new `report_type` on the report-selection wizard.  The
source file `student_report_wizard.py` registers no `@api.onchange`
handler, so the assignment changes that field and nothing else. -/
def reportWizardChangeType (w : ReportWizard) (t : ReportType) : ReportWizard :=
  { w with report_type := t }

/-- `StudentReportWizard.action_generate_report`
(`student_report_wizard.py` 20-52): validate that the active mode's
field is set, dispatch to the matching generator, and re-wrap any
exception from it with the mode-specific message. -/
def actionGenerateReport (env : Env) (pisa : String → PisaOutcome)
    (store : List Attachment) (w : ReportWizard) :
    List Attachment × Except String UrlAction :=
  match w.report_type with
  | .single =>
      match w.student_id with
      | none => (store, .error "Please select a student.")
      | some sid =>
          match env.students.find? (fun s => s.id = sid) with
          | none =>
              (store, .error ("Error generating single student report:\n" ++
                "Record does not exist or has been deleted."))
          | some s =>
              let r := generateSingleStudentReport env pisa store s
              (r.1, r.2.mapError fun e =>
                "Error generating single student report:\n" ++ e)
  | .department =>
      match w.department_id with
      | none => (store, .error "Please select a department.")
      | some did =>
          let r := printDepartmentReport env pisa store (some did)
          (r.1, r.2.mapError fun e =>
            "Error generating department report:\n" ++ e)

/-- `student.email.wizard` (`student_email_wizard.py`): the transient
email form state. -/
structure EmailWizard where
  report_type : ReportType
  student_id : Option Nat
  department_id : Option Nat
  email_to : String
  phone : String
  deriving DecidableEq, Repr

/-- `StudentEmailWizard._onchange_report_type`
(`student_email_wizard.py` 22-28): when the report type changes, clear
the field of the inactive mode. -/
def emailWizardOnchangeReportType (w : EmailWizard) : EmailWizard :=
  match w.report_type with
  | .single => { w with department_id := none }
  | .department => { w with student_id := none }

/-- `StudentEmailWizard.action_send_email` (`student_email_wizard.py`
31-54): require a recipient, require the field matching the selected
mode, then return the simulated success notification naming the
recipient.  No other effect is performed. -/
def actionSendEmail (w : EmailWizard) : Except String Notification :=
  if w.email_to = "" then .error "Recipient email is required!"
  else if w.report_type = .single ∧ w.student_id = none then
    .error "Please select a student for the single report."
  else if w.report_type = .department ∧ w.department_id = none then
    .error "Please select a department for the department report."
  else
    .ok ⟨"Success!", "Report sent successfully to " ++ w.email_to ++ ".",
      "success", false⟩

/-! Concrete fixtures used by the counterexamples and witnesses. -/

/-- An active student of department 1 with complete data. -/
def aliStudent : Student :=
  ⟨1, true, "Ali", "Khan", 20, "A", "", some 1, some .male, 500, 450, 90⟩

/-- A second active student of department 1. -/
def saraStudent : Student :=
  ⟨2, true, "Sara", "Iqbal", 21, "B", "", some 1, some .female, 500, 400, 80⟩

/-- An environment with departments MATH (two students) and BSCS (no
students). -/
def envTwoDepts : Env :=
  ⟨[(1, "MATH"), (2, "BSCS")], [], [], [aliStudent, saraStudent], []⟩

/-- A rasterizer that always succeeds, writing the given bytes. -/
def pisaConst (d : String) : String → PisaOutcome :=
  fun _ => .ok ⟨0, d⟩

/-- A rasterizer that always raises an exception with message `m`. -/
def pisaExn (m : String) : String → PisaOutcome :=
  fun _ => .exn m

/-- A rasterizer that returns a status with error flag `n`. -/
def pisaErrFlag (n : Nat) : String → PisaOutcome :=
  fun _ => .ok ⟨n, ""⟩

/-- C1: for every student record, after any write touching
`total_marks` or `obtained_marks` the stored `percentage` equals
`obtained_marks / total_marks * 100` when `total_marks > 0` and `0`
otherwise; the recompute is triggered by either input changing and the
field is set only through `computePercentage` (it has no inverse), so
the invariant also holds after a bare recompute. -/
theorem student_percentage_invariant (s : Student) (tm om : ℚ) :
    (writeMarks s tm om).total_marks = tm ∧
    (writeMarks s tm om).obtained_marks = om ∧
    percentageInvariant (writeMarks s tm om) ∧
    percentageInvariant (computePercentage s) := by
  unfold writeMarks computePercentage percentageInvariant
  by_cases h : tm > 0 <;> by_cases h' : s.total_marks > 0 <;> simp [h, h']

/-- Witness for C1 at a concrete input. -/
theorem student_percentage_invariant_witness :
    percentageInvariant (writeMarks aliStudent 500 450) :=
  (student_percentage_invariant aliStudent 500 450).2.2.1

/-- C2 (code bug): at the failing input — an ALL-scope report over
departments MATH (two active students) and BSCS (none) — the rendered
output contains a single table, MATH's, with exactly one data row per
student in the fixed column order; no table for BSCS is produced at
all, because `df.groupby('Department')` only yields keys present in
the student data and the "No students in this department" placeholder
branch is unreachable. -/
theorem departmentReport_skips_empty_department :
    envTwoDepts.departments.lookup 2 = some "BSCS" ∧
    (fetchStudents envTwoDepts "ALL" none).length = 2 ∧
    buildTables "ALL"
        ((fetchStudents envTwoDepts "ALL" none).map (buildRow envTwoDepts)) =
      [⟨"MATH", STANDARD_COLUMNS,
        .dataRows [["Ali", "Khan", "20", "A", "500", "450", "90.00%"],
                   ["Sara", "Iqbal", "21", "B", "500", "400", "80.00%"]]⟩] := by
  decide

/-- C3 (code bug): on a successful ALL-scope generation over
`envTwoDepts`, the persisted attachment is named after the last
`groupby` key (`MATH`) instead of the target label `ALL`, because the
`for dept_name, group in df.groupby(...)` loop rebinds `dept_name`;
the no-record-id linkage (`res_id = 0`) does hold. -/
theorem departmentReport_attachment_named_after_last_group :
    (printDepartmentReport envTwoDepts (pisaConst "PDF") [] none).1.map
        Attachment.name = ["Department_Report_MATH.pdf"] ∧
    (printDepartmentReport envTwoDepts (pisaConst "PDF") [] none).1.map
        Attachment.resId = [0] ∧
    "Department_Report_MATH.pdf" ≠ "Department_Report_ALL.pdf" := by
  decide

/-- C4: the department-report cell formatter maps the empty value to
`"-"` in every column; a numeric Percentage value to fixed 2-decimal
notation with a trailing `%`; and a numeric Age / Total Marks /
Obtained Marks value to its plain integer form when it has no
fractional part and to 1-decimal fixed notation otherwise — with the
spec's concrete instances `87.5 ↦ "87.50%"`, `20 ↦ "20"`,
`20.5 ↦ "20.5"`. -/
theorem formatCellValue_spec :
    (∀ col : String, formatCellValue col (.str "") = "-") ∧
    (∀ q : ℚ, formatCellValue "Percentage" (.rat q) =
      toFixed q.num q.den 2 ++ "%") ∧
    (∀ col : String,
      col = "Age" ∨ col = "Total Marks" ∨ col = "Obtained Marks" →
      (∀ q : ℚ, formatCellValue col (.rat q) =
        if q.den = 1 then toString q.num else toFixed q.num q.den 1) ∧
      (∀ v : ℤ, formatCellValue col (.int v) = toString v)) ∧
    formatCellValue "Percentage" (.rat (mkRat 175 2)) = "87.50%" ∧
    formatCellValue "Age" (.rat 20) = "20" ∧
    formatCellValue "Age" (.rat (mkRat 41 2)) = "20.5" := by
  refine ⟨fun col => ?_, fun q => ?_, fun col hcol => ⟨fun q => ?_, fun v => ?_⟩,
    by decide, by decide, by decide⟩
  · simp [formatCellValue]
  · simp [formatCellValue]
  · rcases hcol with h | h | h <;> subst h <;> simp [formatCellValue]
  · rcases hcol with h | h | h <;> subst h <;> simp [formatCellValue]

/-- Witness for C4 at a concrete column and value. -/
theorem formatCellValue_spec_witness :
    ("Total Marks" = "Age" ∨ "Total Marks" = "Total Marks" ∨
      "Total Marks" = "Obtained Marks") ∧
    formatCellValue "Total Marks" (.rat (mkRat 41 2)) = "20.5" := by
  refine ⟨by decide, ?_⟩
  have h := (formatCellValue_spec.2.2.1 "Total Marks" (by decide)).1 (mkRat 41 2)
  exact h.trans (by decide)

/-- C5: when PDF creation fails — the rasterizer raises, or reports a
truthy error flag — both report paths surface a user-facing error whose
message carries the underlying cause, and the attachment store is
returned unchanged: no attachment is created. -/
theorem report_pdf_failure_creates_no_attachment (env : Env)
    (store : List Attachment) (d : Option Nat) (s : Student) (m : String)
    (label : String) (ec : Nat)
    (hlab : resolveDeptLabel env d = .ok label) (hec : ec ≠ 0) :
    printDepartmentReport env (pisaExn m) store d =
      (store, .error ("PDF creation failed: " ++ m)) ∧
    generateSingleStudentReport env (pisaExn m) store s =
      (store, .error ("PDF creation failed: " ++ m)) ∧
    printDepartmentReport env (pisaErrFlag ec) store d =
      (store, .error ("PDF creation failed: PDF generation error: " ++
        toString ec)) ∧
    generateSingleStudentReport env (pisaErrFlag ec) store s =
      (store, .error ("PDF creation failed: PDF generation error: " ++
        toString ec)) := by
  unfold printDepartmentReport generateSingleStudentReport
  rw [hlab]
  simp [makePdf, pisaExn, pisaErrFlag, hec]

/-- Witness for C5 at a concrete environment and failure. -/
theorem report_pdf_failure_witness :
    resolveDeptLabel envTwoDepts none = .ok "ALL" ∧ (7 : Nat) ≠ 0 ∧
    printDepartmentReport envTwoDepts (pisaExn "boom") [] none =
      ([], .error "PDF creation failed: boom") ∧
    generateSingleStudentReport envTwoDepts (pisaExn "boom") [] aliStudent =
      ([], .error "PDF creation failed: boom") := by
  refine ⟨by rfl, by decide, ?_, ?_⟩
  · exact (report_pdf_failure_creates_no_attachment envTwoDepts [] none
      aliStudent "boom" "ALL" 7 (by rfl) (by decide)).1
  · exact (report_pdf_failure_creates_no_attachment envTwoDepts [] none
      aliStudent "boom" "ALL" 7 (by rfl) (by decide)).2.1

/-- Counting a seed step: an existing name leaves the table untouched;
a missing name is appended exactly once. -/
theorem seedStep_count (s : List String) (c n : String) :
    (seedStep s c).count n =
      if c ∈ s then s.count n
      else s.count n + if n = c then 1 else 0 := by
  by_cases hc : c ∈ s
  · simp [seedStep, List.elem_iff, hc]
  · by_cases hn : n = c <;>
      simp [seedStep, List.elem_iff, hc, hn, List.count_append]

/-- Row counts after a lookup-table seed run: each canonical name ends
with `max` of its prior count and 1 (so an absent name is created once
and an existing name is never duplicated); every other name's count is
untouched. -/
theorem seedInit_count (canon : List String) (s : List String) (n : String) :
    (seedInit canon s).count n =
      if n ∈ canon then max (s.count n) 1 else s.count n := by
  induction canon generalizing s with
  | nil => simp [seedInit]
  | cons c cs ih =>
      have hstep : seedInit (c :: cs) s = seedInit cs (seedStep s c) := rfl
      rw [hstep, ih, seedStep_count]
      by_cases hnc : n = c
      · subst hnc
        by_cases hc : n ∈ s
        · have h1 : 1 ≤ s.count n := List.count_pos_iff.mpr hc
          by_cases hcs : n ∈ cs <;> simp [hc, hcs, List.mem_cons]
        · have h0 : s.count n = 0 := by
            by_contra h
            exact hc (List.count_pos_iff.mp (Nat.pos_of_ne_zero h))
          by_cases hcs : n ∈ cs <;> simp [hc, hcs, List.mem_cons, h0]
      · by_cases hc : c ∈ s <;> by_cases hcs : n ∈ cs <;>
          simp [hc, hcs, hnc, List.mem_cons]

/-- Membership is preserved by a seed run. -/
theorem mem_seedInit_of_mem (canon s : List String) (n : String)
    (h : n ∈ s) : n ∈ seedInit canon s := by
  have := seedInit_count canon s n
  have h1 : 1 ≤ s.count n := List.count_pos_iff.mpr h
  apply List.count_pos_iff.mp
  by_cases hn : n ∈ canon <;> simp [hn] at this <;> omega

/-- Every canonical name is present after a seed run. -/
theorem mem_seedInit_of_canonical (canon s : List String) (n : String)
    (h : n ∈ canon) : n ∈ seedInit canon s := by
  have := seedInit_count canon s n
  apply List.count_pos_iff.mp
  simp [h] at this
  omega

/-- A seed run over a table that already holds every canonical name is
the identity. -/
theorem seedInit_fixed (canon : List String) :
    ∀ s : List String, (∀ c ∈ canon, c ∈ s) → seedInit canon s = s := by
  induction canon with
  | nil => intro s _; rfl
  | cons c cs ih =>
      intro s h
      have hc : c ∈ s := h c (List.mem_cons_self c cs)
      have hstep : seedStep s c = s := by
        simp [seedStep, List.elem_iff, hc]
      calc seedInit (c :: cs) s = seedInit cs (seedStep s c) := rfl
        _ = seedInit cs s := by rw [hstep]
        _ = s := ih s (fun d hd => h d (List.mem_cons_of_mem c hd))

/-- Seeding is idempotent. -/
theorem seedInit_idem (canon s : List String) :
    seedInit canon (seedInit canon s) = seedInit canon s :=
  seedInit_fixed canon (seedInit canon s)
    (fun c hc => mem_seedInit_of_canonical canon s c hc)

/-- Counterexample to C6 as stated: from a state that already holds two
rows named `MATH`, running `Department.init` does not yield exactly one
row per canonical name — the pre-existing duplicate persists. -/
theorem seeding_from_duplicate_state_counterexample :
    (seedInit departmentNames ["MATH", "MATH"]).count "MATH" = 2 ∧
    ¬ (seedInit departmentNames ["MATH", "MATH"]).count "MATH" = 1 := by
  decide

/-- C6 (amended): seeding uses one exact-name lookup and at most one
conditional insert per canonical name, and never creates a duplicate of
an existing name: a run leaves each canonical name with row count
`max(prior count, 1)` and every other name's count untouched, and
re-running is the identity.  Hence from any state in which no canonical
name is already duplicated — in particular the empty state, which
yields the 6/5/4 reference rows — any number of runs leaves exactly one
row per canonical name. -/
theorem lookup_seeding_idempotent (canon s : List String) (n : String)
    (hnodup : ∀ m ∈ canon, s.count m ≤ 1) :
    seedInit canon (seedInit canon s) = seedInit canon s ∧
    (seedInit canon s).count n =
      (if n ∈ canon then max (s.count n) 1 else s.count n) ∧
    (n ∈ canon → (seedInit canon s).count n = 1) ∧
    (seedInit departmentNames []).length = 6 ∧
    (seedInit instituteNames []).length = 5 ∧
    (seedInit degreeNames []).length = 4 := by
  refine ⟨seedInit_idem canon s, seedInit_count canon s n, fun hn => ?_,
    by decide, by decide, by decide⟩
  have hcount := seedInit_count canon s n
  rw [if_pos hn] at hcount
  have hle := hnodup n hn
  omega

/-- Witness for C6 (amended) at the empty prior state. -/
theorem lookup_seeding_idempotent_witness :
    (∀ m ∈ departmentNames, ([] : List String).count m ≤ 1) ∧
    ("MATH" ∈ departmentNames →
      (seedInit departmentNames []).count "MATH" = 1) := by
  refine ⟨by decide, ?_⟩
  exact (lookup_seeding_idempotent departmentNames [] "MATH" (by decide)).2.2.1

/-- A report-selection wizard in `single` mode with both fields set,
after the user switches it to `department` mode. -/
def reportWizardAfterSwitch : ReportWizard :=
  reportWizardChangeType ⟨.single, some 1, some 2⟩ .department

/-- Counterexample to C7 as stated: on the Report Selection Wizard,
switching a wizard whose student is set from `single` to `department`
mode leaves the student field set (nothing clears the inactive mode's
field), so both fields are set at submission time. -/
theorem reportWizard_changeType_no_clearing_counterexample :
    reportWizardAfterSwitch.student_id = some 1 ∧
    reportWizardAfterSwitch.department_id = some 2 ∧
    reportWizardAfterSwitch.report_type = .department := by
  decide

/-- C7 (amended): in the Report Selection Wizard a report-type change
touches only the mode field — `student_report_wizard.py` registers no
`onchange`, so neither selection field is cleared and both may be set
at submission; submission validates only the active mode's field
(erroring exactly when that field is empty, regardless of the other).
The clearing-on-mode-change behavior exists only in the Email Wizard. -/
theorem reportWizard_changeType_frame (w : ReportWizard) (t : ReportType)
    (env : Env) (pisa : String → PisaOutcome) (store : List Attachment) :
    (reportWizardChangeType w t).report_type = t ∧
    (reportWizardChangeType w t).student_id = w.student_id ∧
    (reportWizardChangeType w t).department_id = w.department_id ∧
    (w.report_type = .single → w.student_id = none →
      actionGenerateReport env pisa store w =
        (store, .error "Please select a student.")) ∧
    (w.report_type = .department → w.department_id = none →
      actionGenerateReport env pisa store w =
        (store, .error "Please select a department.")) ∧
    (∀ v : EmailWizard, v.report_type = .single →
      (emailWizardOnchangeReportType v).department_id = none ∧
      (emailWizardOnchangeReportType v).student_id = v.student_id) ∧
    (∀ v : EmailWizard, v.report_type = .department →
      (emailWizardOnchangeReportType v).student_id = none ∧
      (emailWizardOnchangeReportType v).department_id = v.department_id) := by
  refine ⟨rfl, rfl, rfl, fun h1 h2 => ?_, fun h1 h2 => ?_,
    fun v hv => ?_, fun v hv => ?_⟩
  · simp [actionGenerateReport, h1, h2]
  · simp [actionGenerateReport, h1, h2]
  · simp [emailWizardOnchangeReportType, hv]
  · simp [emailWizardOnchangeReportType, hv]

/-- Witness for C7 (amended) at a concrete wizard state. -/
theorem reportWizard_changeType_frame_witness :
    ((⟨.single, none, some 2⟩ : ReportWizard).report_type = .single) ∧
    ((⟨.single, none, some 2⟩ : ReportWizard).student_id = none) ∧
    actionGenerateReport envTwoDepts (pisaConst "PDF") []
        ⟨.single, none, some 2⟩ = ([], .error "Please select a student.") := by
  refine ⟨by decide, by decide, ?_⟩
  exact (reportWizard_changeType_frame ⟨.single, none, some 2⟩ .department
    envTwoDepts (pisaConst "PDF") []).2.2.2.1 rfl rfl

/-- C8: the Email Wizard's submit raises a validation error — and does
nothing else — whenever the recipient is blank, regardless of mode;
whenever mode is `single` with no student selected; and whenever mode
is `department` with no department selected; otherwise it returns the
success confirmation naming the recipient. -/
theorem emailWizard_validation (w : EmailWizard) :
    (w.email_to = "" →
      actionSendEmail w = .error "Recipient email is required!") ∧
    (w.email_to ≠ "" → w.report_type = .single → w.student_id = none →
      actionSendEmail w =
        .error "Please select a student for the single report.") ∧
    (w.email_to ≠ "" → w.report_type = .department → w.department_id = none →
      actionSendEmail w =
        .error "Please select a department for the department report.") ∧
    (w.email_to ≠ "" → (w.report_type = .single → w.student_id ≠ none) →
      (w.report_type = .department → w.department_id ≠ none) →
      actionSendEmail w = .ok ⟨"Success!",
        "Report sent successfully to " ++ w.email_to ++ ".",
        "success", false⟩) := by
  refine ⟨fun h => ?_, fun h1 h2 h3 => ?_, fun h1 h2 h3 => ?_,
    fun h1 h2 h3 => ?_⟩
  · simp [actionSendEmail, h]
  · simp [actionSendEmail, h1, h2, h3]
  · cases hrt : w.report_type <;>
      simp [actionSendEmail, h1, h2, h3, hrt] at h2 ⊢
  · cases hrt : w.report_type
    · have := h2 hrt
      simp [actionSendEmail, h1, hrt, this]
    · have := h3 hrt
      simp [actionSendEmail, h1, hrt, this]

/-- Witness for C8 at a concrete valid submission. -/
theorem emailWizard_validation_witness :
    (("a@b.com" : String) ≠ "") ∧
    actionSendEmail ⟨.single, some 1, none, "a@b.com", ""⟩ =
      .ok ⟨"Success!", "Report sent successfully to a@b.com.",
        "success", false⟩ := by
  refine ⟨by decide, ?_⟩
  exact (emailWizard_validation ⟨.single, some 1, none, "a@b.com", ""⟩).2.2.2
    (by decide) (fun _ => by decide) (fun h => by cases h)

/-- C9: the archive action sets `active = false` and the restore action
sets `active = true`, each leaving every other field of the student
unchanged and returning the user-visible confirmation; both go through
`ensure_one`, so they fail whenever the target is not exactly one
record. -/
theorem archive_restore_actions (s : Student) (recs : List Student)
    (h : recs.length ≠ 1) :
    actionDeleteRecord [s] = .ok ({ s with active := false },
      ⟨"Archived!", "Student " ++ s.name ++ " has been archived.",
       "warning", false⟩) ∧
    actionRestoreRecord [s] = .ok ({ s with active := true },
      ⟨"Restored!", "Student " ++ s.name ++ " has been restored.",
       "success", false⟩) ∧
    ({ s with active := false } : Student).id = s.id ∧
    ({ s with active := false } : Student).name = s.name ∧
    ({ s with active := false } : Student).father_name = s.father_name ∧
    ({ s with active := false } : Student).age = s.age ∧
    ({ s with active := false } : Student).grade = s.grade ∧
    ({ s with active := false } : Student).address = s.address ∧
    ({ s with active := false } : Student).department_id = s.department_id ∧
    ({ s with active := false } : Student).gender = s.gender ∧
    ({ s with active := false } : Student).total_marks = s.total_marks ∧
    ({ s with active := false } : Student).obtained_marks = s.obtained_marks ∧
    ({ s with active := false } : Student).percentage = s.percentage ∧
    ({ s with active := true } : Student).id = s.id ∧
    ({ s with active := true } : Student).name = s.name ∧
    ({ s with active := true } : Student).father_name = s.father_name ∧
    ({ s with active := true } : Student).age = s.age ∧
    ({ s with active := true } : Student).grade = s.grade ∧
    ({ s with active := true } : Student).address = s.address ∧
    ({ s with active := true } : Student).department_id = s.department_id ∧
    ({ s with active := true } : Student).gender = s.gender ∧
    ({ s with active := true } : Student).total_marks = s.total_marks ∧
    ({ s with active := true } : Student).obtained_marks = s.obtained_marks ∧
    ({ s with active := true } : Student).percentage = s.percentage ∧
    actionDeleteRecord recs = .error "Expected singleton" ∧
    actionRestoreRecord recs = .error "Expected singleton" := by
  refine ⟨rfl, rfl, rfl, rfl, rfl, rfl, rfl, rfl, rfl, rfl, rfl, rfl, rfl,
    rfl, rfl, rfl, rfl, rfl, rfl, rfl, rfl, rfl, rfl, rfl, ?_, ?_⟩ <;>
  · match recs, h with
    | [], _ => rfl
    | [a], h => exact absurd rfl h
    | a :: b :: t, _ => rfl

/-- Witness for C9 at a concrete student and a two-record target. -/
theorem archive_restore_actions_witness :
    ([aliStudent, saraStudent].length ≠ 1) ∧
    actionDeleteRecord [aliStudent] = .ok
      ({ aliStudent with active := false },
       ⟨"Archived!", "Student Ali has been archived.", "warning", false⟩) ∧
    actionDeleteRecord [aliStudent, saraStudent] =
      .error "Expected singleton" := by
  refine ⟨by decide, ?_, ?_⟩
  · exact (archive_restore_actions aliStudent [aliStudent, saraStudent]
      (by decide)).1
  · exact (archive_restore_actions aliStudent [aliStudent, saraStudent]
      (by decide)).2.2.2.2.2.2.2.2.2.2.2.2.2.2.2.2.2.2.2.2.2.2.2.2.1

/-- C10 (implicit): in the department report, a student whose age,
total marks, or obtained marks is exactly `0` has that cell coerced to
the empty string by the row builder's `or ''` default, and therefore
rendered as the empty-value placeholder `"-"` rather than as `"0"`. -/
theorem zero_numeric_cells_render_dash (env : Env) (s : Student) :
    (s.age = 0 → (buildRow env s).age = .str "" ∧
      formatCellValue "Age" (buildRow env s).age = "-") ∧
    (s.total_marks = 0 → (buildRow env s).totalMarks = .str "" ∧
      formatCellValue "Total Marks" (buildRow env s).totalMarks = "-") ∧
    (s.obtained_marks = 0 → (buildRow env s).obtainedMarks = .str "" ∧
      formatCellValue "Obtained Marks" (buildRow env s).obtainedMarks = "-") := by
  refine ⟨fun h => ?_, fun h => ?_, fun h => ?_⟩ <;>
    simp [buildRow, intOrEmpty, ratOrEmpty, h, formatCellValue]

/-- Witness for C10 at a concrete student with zero marks and age. -/
theorem zero_numeric_cells_render_dash_witness :
    (({ aliStudent with age := 0 } : Student).age = 0) ∧
    formatCellValue "Age"
      (buildRow envTwoDepts { aliStudent with age := 0 }).age = "-" := by
  refine ⟨by decide, ?_⟩
  exact ((zero_numeric_cells_render_dash envTwoDepts
    { aliStudent with age := 0 }).1 rfl).2

end StudData
